import Mathlib

/-
Verification development for the silica-percentage prediction app
(src/main.py).  The app is a Streamlit page that loads a joblib model
artifact, collects three slider inputs, builds a one-row pandas
DataFrame and displays the model's prediction.

Shallow embedding conventions:
  * Python floats are modelled by `PyFloat` (a rational together with
    the non-finite values nan / inf / -inf); slider values are exact
    rationals (integer sliders are `Int`-typed, matching the widget).
  * A raised Python exception is the `Except.error` side of `Except`;
    a value returned normally is `Except.ok`.
  * The external libraries (joblib, pandas, the deserialized model) are
    parameters of the embedding: a `FileSystem` describes what
    `joblib.load` finds at each path, a `PandasEnv` describes how the
    `pd.DataFrame` constructor behaves, and a `Predictor` is the opaque
    deserialized model's `predict` method on a one-row DataFrame.
    The control flow around those calls is translated line by line
    from src/main.py.
-/

set_option autoImplicit false

namespace SilicaApp

/-- Python exceptions that the script can encounter: `FileNotFoundError`
(the one class `load_model` catches), `PermissionError` for an unreadable
file, joblib/pickle's `UnpicklingError` for a malformed artifact, an
exception raised inside `model.predict`, and a catch-all for anything
else (e.g. an error raised by the `pd.DataFrame` constructor). -/
inductive PyError where
  | fileNotFound (path : String)
  | permissionError
  | unpicklingError
  | predictError (msg : String)
  | otherError (msg : String)
  deriving DecidableEq

/-- The message `str(e)` would produce for each modelled exception. -/
def pyErrMsg : PyError → String
  | .fileNotFound p => "No such file or directory: " ++ p
  | .permissionError => "Permission denied"
  | .unpicklingError => "invalid load key"
  | .predictError m => m
  | .otherError m => m

/-- A Python float: either a finite value (modelled exactly as a
rational) or one of the non-finite IEEE values. -/
inductive PyFloat where
  | finite (q : ℚ)
  | nan
  | inf
  | ninf
  deriving DecidableEq

/-- A one-row pandas DataFrame: the ordered list of column names with
the single value each column holds (src/main.py builds exactly one row). -/
abbrev DataFrame : Type := List (String × ℚ)

/-- The opaque deserialized model: `model.predict` takes the one-row
DataFrame and either returns the array of predictions or raises. -/
abbrev Predictor : Type := DataFrame → Except PyError (List PyFloat)

/-- What a filesystem path resolves to, as seen by `joblib.load`:
nothing, an unreadable file, a file that is not a valid artifact, or a
well-formed artifact that deserializes to a predictor. -/
inductive FileState where
  | absent
  | unreadable
  | malformed
  | artifact (model : Predictor)

/-- The filesystem as a map from paths to file states. -/
abbrev FileSystem : Type := String → FileState

/-- Behaviour of `joblib.load` (an external call): raises
`FileNotFoundError` on a missing path, `PermissionError` on an
unreadable file, `UnpicklingError` on a malformed artifact, and returns
the deserialized predictor otherwise. -/
def joblib_load (fs : FileSystem) (path : String) : Except PyError Predictor :=
  match fs path with
  | .absent => .error (.fileNotFound path)
  | .unreadable => .error .permissionError
  | .malformed => .error .unpicklingError
  | .artifact m => .ok m

/-- src/main.py lines 18-25: `load_model` calls `joblib.load(model_path)`
inside `try`, returns the model on success, and catches exactly
`FileNotFoundError`, displaying `st.error` (display not modelled) and
returning `None`.  Any other exception is not caught and propagates
(`Except.error`). -/
def load_model (fs : FileSystem) (path : String) : Except PyError (Option Predictor) :=
  match joblib_load fs path with
  | .ok m => .ok (some m)
  | .error (.fileNotFound _) => .ok none
  | .error e => .error e

/-! ### The `@st.cache_resource` memoization (src/main.py line 17)

Streamlit's `cache_resource` stores the decorated function's return
value keyed by its arguments; a later call with the same arguments
returns the stored value without running the body.  A call whose body
raises stores nothing.  `ProcState.reads` counts how many times the
body ran, i.e. how many times `joblib.load` touched the filesystem. -/

/-- Per-process cache state for the memoized `load_model`: the stored
return values keyed by path, and the number of times the body executed. -/
structure ProcState where
  cache : List (String × Option Predictor)
  reads : ℕ

/-- Look a path up in the memoization cache. -/
def lookupCache : List (String × Option Predictor) → String → Option (Option Predictor)
  | [], _ => none
  | (k, v) :: rest, p => if k = p then some v else lookupCache rest p

/-- One call of the `@st.cache_resource`-decorated `load_model`: a cache
hit returns the stored value without touching the filesystem; a miss
runs the body, stores a normal return, and lets an exception through
without storing anything. -/
def cachedLoadModel (fs : FileSystem) (σ : ProcState) (path : String) :
    Except PyError (Option Predictor) × ProcState :=
  match lookupCache σ.cache path with
  | some r => (.ok r, σ)
  | none =>
      match load_model fs path with
      | .ok r => (.ok r, ⟨(path, r) :: σ.cache, σ.reads + 1⟩)
      | .error e => (.error e, ⟨σ.cache, σ.reads + 1⟩)

/-- N successive calls of the cached `load_model` with the same path,
returning the list of results and the final cache state. -/
def callN (fs : FileSystem) (path : String) :
    ℕ → ProcState → List (Except PyError (Option Predictor)) × ProcState
  | 0, σ => ([], σ)
  | n + 1, σ =>
      let step := cachedLoadModel fs σ path
      let rest := callN fs path n step.2
      (step.1 :: rest.1, rest.2)

/-! ### The slider widgets (src/main.py lines 39-66)

A Streamlit slider offers the values `min_value + k * step` for
`k = 0, 1, ...` that do not exceed `max_value`.  `AminaFlow` and
`flotationcolumnairflow` are integer sliders (integer min/max/step, so
the widget yields `int` values); `ironconcentrate` is a float slider. -/

/-- An integer-typed `st.slider`. -/
structure IntSlider where
  min_value : ℤ
  max_value : ℤ
  step : ℤ

/-- The set of values an integer slider can yield. -/
def IntSlider.values (s : IntSlider) (v : ℤ) : Prop :=
  ∃ k : ℕ, v = s.min_value + k * s.step ∧ v ≤ s.max_value

/-- A float-typed `st.slider`. -/
structure FloatSlider where
  min_value : ℚ
  max_value : ℚ
  step : ℚ

/-- The set of values a float slider can yield. -/
def FloatSlider.values (s : FloatSlider) (v : ℚ) : Prop :=
  ∃ k : ℕ, v = s.min_value + k * s.step ∧ v ≤ s.max_value

/-- src/main.py lines 39-45: `AminaFlow = st.slider(min_value=240,
max_value=750, value=400, step=1)`. -/
def AminaFlowSlider : IntSlider := ⟨240, 750, 1⟩

/-- src/main.py lines 49-55: `ironconcentrate = st.slider(min_value=60.00,
max_value=70.00, step=0.005)`; 0.005 = 1/200. -/
def ironconcentrateSlider : FloatSlider := ⟨60, 70, 1 / 200⟩

/-- src/main.py lines 59-65: `flotationcolumnairflow = st.slider(
min_value=-100, max_value=400, value=250, step=1)`. -/
def flotationSlider : IntSlider := ⟨-100, 400, 1⟩

/-! ### The prediction click handler (src/main.py lines 81-105) -/

/-- src/main.py lines 89-93: the dict passed to `pd.DataFrame`, in
source order: `Amina Flow`, `Flotation Column 01 Air Flow`,
`% Iron Concentrate` (one-element list each). -/
def df_input_columns (AminaFlow flotationcolumnairflow : ℤ)
    (ironconcentrate : ℚ) : DataFrame :=
  [("Amina Flow", (AminaFlow : ℚ)),
   ("Flotation Column 01 Air Flow", (flotationcolumnairflow : ℚ)),
   ("% Iron Concentrate", ironconcentrate)]

/-- The column order the model was trained with, per the comment at
src/main.py lines 86-88 ("Based on the error message, the expected
order is: ['Amina Flow', 'Flotation Column 01 Air Flow',
'% Iron Concentrate']"). -/
def trainedColumnOrder : List String :=
  ["Amina Flow", "Flotation Column 01 Air Flow", "% Iron Concentrate"]

/-- Behaviour of the external `pd.DataFrame` constructor: given the
intended column content it either returns the DataFrame or raises. -/
abbrev PandasEnv : Type := DataFrame → Except PyError DataFrame

/-- The normal behaviour of `pd.DataFrame` on the fixed three-column,
one-row dict of src/main.py: it succeeds and returns the DataFrame. -/
def pandasOk : PandasEnv := fun df => .ok df

/-- Rounding to two decimal places, as the display format `:.2f` does.
(Python's exact half-even tie-breaking on binary floats is outside the
rational model; any deterministic two-decimal rounding serves here,
since no claim depends on tie behaviour.) -/
def round2 (q : ℚ) : ℚ := (round (q * 100) : ℤ) / 100

/-- Rendering of a PyFloat by the `:.2f` format specifier. -/
def fmtPyFloat : PyFloat → String
  | .finite q => toString (round2 q)
  | .nan => "nan"
  | .inf => "inf"
  | .ninf => "-inf"

/-- src/main.py line 100: the `st.success` text, built from
`prediction_value[0]` formatted to two decimals. -/
def successText (v : PyFloat) : String :=
  "Porcentaje Predicho: " ++ fmtPyFloat v ++ "%"

/-- src/main.py line 103: the `st.error` text shown by the `except`
branch, built from `str(e)`. -/
def predErrorText (e : PyError) : String :=
  "Ocurrió un error durante la predicción: " ++ pyErrMsg e

/-- The `IndexError` message raised by `prediction_value[0]` when the
prediction array is empty. -/
def indexErrorText : String := "index 0 is out of bounds for axis 0 with size 0"

/-- What the click handler displays when it finishes normally: the
success box (carrying the raw predicted value and the formatted text)
or the error box from the `except` branch. -/
inductive PredDisplay where
  | successBox (value : PyFloat) (text : String)
  | errorBox (msg : String)
  deriving DecidableEq

/-- src/main.py lines 84-103, the body of the button handler:
`df_input = pd.DataFrame(...)` runs first, OUTSIDE any `try`, so an
exception there propagates; then `try:` wraps `model.predict(df_input)`
and the display of `prediction_value[0]`, and `except Exception as e:`
converts any exception from that block into the `st.error` box. -/
def predictionStep (pandas : PandasEnv) (model : Predictor)
    (AminaFlow flotationcolumnairflow : ℤ) (ironconcentrate : ℚ) :
    Except PyError PredDisplay :=
  match pandas (df_input_columns AminaFlow flotationcolumnairflow ironconcentrate) with
  | .error e => .error e
  | .ok df =>
      match model df with
      | .error e => .ok (.errorBox (predErrorText e))
      | .ok [] => .ok (.errorBox (predErrorText (.otherError indexErrorText)))
      | .ok (v :: _) => .ok (.successBox v (successText v))

/-- src/main.py line 105: the `st.warning` text shown when the model
did not load. -/
def warnText : String :=
  "El modelo no pudo ser cargado. Por favor, verifica la ruta del archivo del modelo."

/-- Outcome of one rendering of the page after the model-load attempt:
a prediction display (button pressed, model present), nothing (button
not pressed), or the degraded-mode warning (model is `None`). -/
inductive AppOutcome where
  | predicted (d : PredDisplay)
  | idle
  | warningNoModel (msg : String)
  deriving DecidableEq

/-- src/main.py lines 81-105: `if model is not None:` run the button
handler when clicked, `else:` show the warning.  With `model = None`
the button is never rendered, so no prediction is ever attempted. -/
def appStep (pandas : PandasEnv) (model : Option Predictor) (clicked : Bool)
    (AminaFlow flotationcolumnairflow : ℤ) (ironconcentrate : ℚ) :
    Except PyError AppOutcome :=
  match model with
  | some m =>
      if clicked then
        match predictionStep pandas m AminaFlow flotationcolumnairflow ironconcentrate with
        | .ok d => .ok (.predicted d)
        | .error e => .error e
      else .ok .idle
  | none => .ok (.warningNoModel warnText)

/-- The raw value carried by a success box, when there is one. -/
def displayValue : Except PyError PredDisplay → Option PyFloat
  | .ok (.successBox v _) => some v
  | _ => none

/-- The spec's declared ranges for a ParameterRecord: amine flow in
[100, 800], iron concentrate percentage in [0, 100], flotation air
flow in [-100, 500]. -/
def inDeclaredRanges (AminaFlow flotationcolumnairflow : ℤ)
    (ironconcentrate : ℚ) : Prop :=
  100 ≤ AminaFlow ∧ AminaFlow ≤ 800 ∧
  0 ≤ ironconcentrate ∧ ironconcentrate ≤ 100 ∧
  -100 ≤ flotationcolumnairflow ∧ flotationcolumnairflow ≤ 500

instance (a f : ℤ) (i : ℚ) : Decidable (inDeclaredRanges a f i) := by
  unfold inDeclaredRanges; infer_instance

/-- A healthy (well-formed) predictor: on every one-row DataFrame it
returns a single finite scalar, per the artifact contract of spec
section 6 ("single-row-in, single-scalar-out"). -/
def wellFormed (m : Predictor) : Prop :=
  ∀ df : DataFrame, ∃ q : ℚ, m df = .ok [PyFloat.finite q]

/-! ### Concrete instances used by counterexamples and witnesses -/

/-- A predictor that returns the constant 7 on every input. -/
def constModel : Predictor := fun _ => .ok [.finite 7]

/-- Column lookup in a one-row DataFrame, as a model selecting its
features by name would do. -/
def lookupCol : DataFrame → String → Option ℚ
  | [], _ => none
  | (k, v) :: rest, c => if k = c then some v else lookupCol rest c

/-- A fixed synthetic regression model (the spec's "fixed-seed synthetic
model"): a linear form with distinct weights per trained column, so it
distinguishes the three features. -/
def syntheticModel : Predictor := fun df =>
  match lookupCol df "Amina Flow",
        lookupCol df "Flotation Column 01 Air Flow",
        lookupCol df "% Iron Concentrate" with
  | some a, some f, some i => .ok [.finite (a + 2 * f + 3 * i)]
  | _, _, _ => .error (.predictError "feature columns are missing")

/-- A filesystem on which every path is missing. -/
def fsAbsent : FileSystem := fun _ => .absent

/-- A filesystem on which every path holds a malformed artifact. -/
def fsMalformed : FileSystem := fun _ => .malformed

/-- A filesystem whose every path holds a well-formed artifact that
deserializes to `constModel`. -/
def fsConst : FileSystem := fun _ => .artifact constModel

/-- A `pd.DataFrame` constructor that raises (e.g. a shape mismatch in
the supplied dict): models a packaging failure. -/
def badPandas : PandasEnv := fun _ => .error (.otherError "shape mismatch")

/-- A predictor whose `predict` always raises. -/
def failingModel : Predictor := fun _ => .error (.predictError "simulated inference failure")

/-! ## Claims -/

/-- C1 counterexample: with a `pd.DataFrame` constructor that raises, the
click handler propagates the exception (`Except.error`) instead of
converting it into the error box: `df_input = pd.DataFrame(...)` runs
before the `try` block, so a packaging error escapes the handler. -/
theorem packaging_error_escapes_handler :
    predictionStep badPandas constModel 400 250 65 =
      Except.error (PyError.otherError "shape mismatch") := rfl

/-- C1 (amended): every error raised during inference (the
`model.predict` call, inside the `try` block) is caught and converted
into the displayed error message; the packaging step runs before the
`try`, so its errors are not covered by the handler. -/
theorem inference_errors_become_error_box (pandas : PandasEnv) (model : Predictor)
    (a f : ℤ) (i : ℚ) (df : DataFrame) (e : PyError)
    (hp : pandas (df_input_columns a f i) = Except.ok df)
    (hm : model df = Except.error e) :
    predictionStep pandas model a f i = Except.ok (PredDisplay.errorBox (predErrorText e)) := by
  simp [predictionStep, hp, hm]

/-- Witness for C1: a concrete inference failure is converted into the
error box. -/
theorem inference_errors_become_error_box_witness :
    predictionStep pandasOk failingModel 400 250 65 =
      Except.ok (PredDisplay.errorBox (predErrorText (PyError.predictError "simulated inference failure"))) :=
  inference_errors_become_error_box pandasOk failingModel 400 250 65
    (df_input_columns 400 250 65) (PyError.predictError "simulated inference failure") rfl rfl

/-- C2 counterexample: on a path holding a malformed artifact,
`load_model` does not return the `None` sentinel: the `UnpicklingError`
raised by `joblib.load` is not `FileNotFoundError`, so it is not caught
and propagates to the caller. -/
theorem malformed_artifact_raises :
    load_model fsMalformed "model.joblib" = Except.error PyError.unpicklingError := rfl

/-- C2 (amended): `load_model` returns the `None` sentinel, without
raising, exactly for a missing path (`FileNotFoundError`); an unreadable
file or a malformed artifact raises to the caller. -/
theorem load_model_error_behavior (fs : FileSystem) (path : String) :
    (fs path = FileState.absent → load_model fs path = Except.ok none) ∧
    (fs path = FileState.unreadable → load_model fs path = Except.error PyError.permissionError) ∧
    (fs path = FileState.malformed → load_model fs path = Except.error PyError.unpicklingError) := by
  refine ⟨fun h => ?_, fun h => ?_, fun h => ?_⟩ <;> simp [load_model, joblib_load, h]

/-- Witness for C2: on a filesystem with no file at the path,
`load_model` returns the `None` sentinel without raising. -/
theorem load_model_error_behavior_witness :
    load_model fsAbsent "model.joblib" = Except.ok none :=
  (load_model_error_behavior fsAbsent "model.joblib").1 rfl

/-- Helper for C3: once the cache holds an entry for the path, every
further call returns exactly that entry and leaves the state (cache and
read count) unchanged. -/
theorem callN_cache_hit (fs : FileSystem) (path : String) (r : Option Predictor) :
    ∀ (n : ℕ) (σ : ProcState), lookupCache σ.cache path = some r →
      callN fs path n σ = (List.replicate n (Except.ok r), σ) := by
  intro n
  induction n with
  | zero => intro σ _; rfl
  | succ n ih =>
      intro σ h
      simp [callN, cachedLoadModel, h, ih σ h, List.replicate_succ]

/-- C3: when the first `load_model` call returns normally, N calls with
the same path (N ≥ 1) all return that same value, the body runs exactly
once (the artifact is read once per process), and the cached entry is
never replaced. -/
theorem load_is_memoized (fs : FileSystem) (path : String)
    (r : Option Predictor) (N : ℕ) (hN : 1 ≤ N)
    (h : load_model fs path = Except.ok r) :
    callN fs path N ⟨[], 0⟩ =
      (List.replicate N (Except.ok r), ⟨[(path, r)], 1⟩) := by
  obtain ⟨n, rfl⟩ : ∃ n, N = n + 1 := ⟨N - 1, by omega⟩
  have h1 : cachedLoadModel fs ⟨[], 0⟩ path = (Except.ok r, ⟨[(path, r)], 1⟩) := by
    simp [cachedLoadModel, lookupCache, h]
  have h2 : lookupCache ([(path, r)] : List (String × Option Predictor)) path = some r := by
    simp [lookupCache]
  simp [callN, h1, callN_cache_hit fs path r n ⟨[(path, r)], 1⟩ h2, List.replicate_succ]

/-- Witness for C3: three calls on a filesystem holding a good artifact
yield three identical results and a single filesystem read. -/
theorem load_is_memoized_witness :
    callN fsConst "model.joblib" 3 ⟨[], 0⟩ =
      (List.replicate 3 (Except.ok (some constModel)), ⟨[("model.joblib", some constModel)], 1⟩) :=
  load_is_memoized fsConst "model.joblib" (some constModel) 3 (by norm_num) rfl

/-- C4 counterexample: a record far outside the declared ranges (amine
flow 0) is not rejected: the handler performs no validation, invokes the
model, and displays its output as success — no structured failure occurs
before (or instead of) the inference call. -/
theorem out_of_range_record_reaches_inference :
    ¬ inDeclaredRanges 0 250 65 ∧
    predictionStep pandasOk constModel 0 250 65 =
      Except.ok (PredDisplay.successBox (PyFloat.finite 7) (successText (PyFloat.finite 7))) :=
  ⟨by decide, rfl⟩

/-- C4 (amended): the prediction handler performs no range validation;
every record it is given, including records outside the declared ranges,
is packaged and sent to inference, and the model's answer is displayed.
Range restriction exists only in the slider widgets. -/
theorem no_range_validation_before_inference (a f : ℤ) (i : ℚ)
    (model : Predictor) (v : PyFloat) (vs : List PyFloat)
    (_hout : ¬ inDeclaredRanges a f i)
    (hm : model (df_input_columns a f i) = Except.ok (v :: vs)) :
    predictionStep pandasOk model a f i =
      Except.ok (PredDisplay.successBox v (successText v)) := by
  simp [predictionStep, pandasOk, hm]

/-- Witness for C4: the out-of-range record (0, 250, 65) goes straight
to inference and yields the model's success display. -/
theorem no_range_validation_before_inference_witness :
    predictionStep pandasOk constModel 0 250 65 =
      Except.ok (PredDisplay.successBox (PyFloat.finite 7) (successText (PyFloat.finite 7))) :=
  no_range_validation_before_inference 0 250 65 constModel (PyFloat.finite 7) []
    (by decide) rfl

/-- C5: the handler packages the three inputs under exactly the column
names and order the model was trained with (per the source comment), and
the displayed result is the first element of the model's output array. -/
theorem packaging_matches_trained_schema (a f : ℤ) (i : ℚ) :
    (df_input_columns a f i).map Prod.fst = trainedColumnOrder ∧
    ∀ (model : Predictor) (v : PyFloat) (vs : List PyFloat),
      model (df_input_columns a f i) = Except.ok (v :: vs) →
      displayValue (predictionStep pandasOk model a f i) = some v := by
  refine ⟨rfl, fun model v vs hm => ?_⟩
  simp [predictionStep, pandasOk, hm, displayValue]

/-- Witness for C5: concrete inputs are packaged in the trained column
order and the first output of a concrete model is displayed. -/
theorem packaging_matches_trained_schema_witness :
    (df_input_columns 400 250 65).map Prod.fst = trainedColumnOrder ∧
    displayValue (predictionStep pandasOk constModel 400 250 65) = some (PyFloat.finite 7) :=
  ⟨(packaging_matches_trained_schema 400 250 65).1,
   (packaging_matches_trained_schema 400 250 65).2 constModel (PyFloat.finite 7) [] rfl⟩

/-- C6: with the model absent (`None`), the page shows the degraded-mode
warning on every rendering — no prediction is attempted and no exception
escapes; and a path that resolves to no artifact makes `load_model`
return that `None`. -/
theorem absent_model_warns_never_crashes (fs : FileSystem) (path : String)
    (pandas : PandasEnv) (clicked : Bool) (a f : ℤ) (i : ℚ)
    (h : fs path = FileState.absent) :
    load_model fs path = Except.ok none ∧
    appStep pandas none clicked a f i = Except.ok (AppOutcome.warningNoModel warnText) :=
  ⟨by simp [load_model, joblib_load, h], rfl⟩

/-- Witness for C6: a concrete missing-file load followed by a click
yields the warning outcome. -/
theorem absent_model_warns_never_crashes_witness :
    load_model fsAbsent "model.joblib" = Except.ok none ∧
    appStep pandasOk none true 400 250 65 = Except.ok (AppOutcome.warningNoModel warnText) :=
  absent_model_warns_never_crashes fsAbsent "model.joblib" pandasOk true 400 250 65 rfl

/-- C7: the value carried by the success display is the model's raw
first output, unchanged — no clamping, rounding or unit conversion; the
two-decimal rounding appears only inside the formatted display text. -/
theorem returned_value_is_raw_model_output (model : Predictor) (a f : ℤ) (i : ℚ)
    (v : PyFloat) (vs : List PyFloat)
    (hm : model (df_input_columns a f i) = Except.ok (v :: vs)) :
    predictionStep pandasOk model a f i =
      Except.ok (PredDisplay.successBox v (successText v)) := by
  simp [predictionStep, pandasOk, hm]

/-- Witness for C7: the synthetic linear model's raw output 1095 is
carried unchanged by the success display. -/
theorem returned_value_is_raw_model_output_witness :
    predictionStep pandasOk syntheticModel 400 250 65 =
      Except.ok (PredDisplay.successBox (PyFloat.finite 1095) (successText (PyFloat.finite 1095))) :=
  returned_value_is_raw_model_output syntheticModel 400 250 65 (PyFloat.finite 1095) []
    (by simp [syntheticModel, df_input_columns, lookupCol]; norm_num)

/-- C8: the service is not permutation-invariant: there are records such
that swapping the amine-flow and air-flow values changes the displayed
prediction of the fixed synthetic model, so each field reaches its own
model column. -/
theorem not_permutation_invariant :
    ∃ (a f : ℤ) (i : ℚ),
      displayValue (predictionStep pandasOk syntheticModel a f i) ≠
      displayValue (predictionStep pandasOk syntheticModel f a i) := by
  refine ⟨1, 2, 3, ?_⟩
  have h1 : syntheticModel (df_input_columns 1 2 3) = Except.ok [PyFloat.finite 14] := by
    simp [syntheticModel, df_input_columns, lookupCol]
    norm_num
  have h2 : syntheticModel (df_input_columns 2 1 3) = Except.ok [PyFloat.finite 13] := by
    simp [syntheticModel, df_input_columns, lookupCol]
    norm_num
  have h3 : (14 : ℚ) ≠ 13 := by norm_num
  simp [predictionStep, pandasOk, h1, h2, displayValue, h3]

/-- C9: for a healthy predictor (single finite scalar on every input)
and a record inside the declared ranges, the displayed prediction is a
finite value — the handler adds no NaN or infinity of its own. -/
theorem healthy_predictor_gives_finite (model : Predictor) (a f : ℤ) (i : ℚ)
    (hw : wellFormed model) (_hr : inDeclaredRanges a f i) :
    ∃ q : ℚ, displayValue (predictionStep pandasOk model a f i) = some (PyFloat.finite q) := by
  obtain ⟨q, hq⟩ := hw (df_input_columns a f i)
  exact ⟨q, by simp [predictionStep, pandasOk, hq, displayValue]⟩

/-- Witness for C9: the constant model is healthy and yields a finite
display on an in-range record. -/
theorem healthy_predictor_gives_finite_witness :
    wellFormed constModel ∧ inDeclaredRanges 400 250 65 ∧
    ∃ q : ℚ, displayValue (predictionStep pandasOk constModel 400 250 65) = some (PyFloat.finite q) :=
  ⟨fun _ => ⟨7, rfl⟩, by decide,
   healthy_predictor_gives_finite constModel 400 250 65 (fun _ => ⟨7, rfl⟩) (by decide)⟩

/-- C10: every record the widgets can produce satisfies: amine flow an
integer in [240, 750], iron concentrate in [60, 70], air flow an integer
in [-100, 400] (the integrality of the first and third fields is the
`Int` typing of the integer sliders), and these bounds lie inside the
spec's declared ranges. -/
theorem widget_ranges_narrower_than_declared (a f : ℤ) (i : ℚ)
    (ha : AminaFlowSlider.values a) (hf : flotationSlider.values f)
    (hi : ironconcentrateSlider.values i) :
    (240 ≤ a ∧ a ≤ 750) ∧ (60 ≤ i ∧ i ≤ 70) ∧ (-100 ≤ f ∧ f ≤ 400) ∧
    inDeclaredRanges a f i := by
  simp only [IntSlider.values, FloatSlider.values, AminaFlowSlider,
    flotationSlider, ironconcentrateSlider] at ha hf hi
  obtain ⟨ka, hka, hka'⟩ := ha
  obtain ⟨kf, hkf, hkf'⟩ := hf
  obtain ⟨ki, hki, hki'⟩ := hi
  have hi0 : (0 : ℚ) ≤ (ki : ℚ) * (1 / 200) := by positivity
  have hi1 : 60 ≤ i := by rw [hki]; linarith
  refine ⟨⟨by omega, hka'⟩, ⟨hi1, hki'⟩, ⟨by omega, hkf'⟩, ?_⟩
  simp only [inDeclaredRanges]
  exact ⟨by omega, by omega, by linarith, by linarith, by omega, by omega⟩

/-- Witness for C10: the default slider position (400, 250, 65.00)
satisfies the widget bounds and the declared ranges. -/
theorem widget_ranges_narrower_than_declared_witness :
    (240 ≤ (400 : ℤ) ∧ (400 : ℤ) ≤ 750) ∧ ((60 : ℚ) ≤ 65 ∧ (65 : ℚ) ≤ 70) ∧
    (-100 ≤ (250 : ℤ) ∧ (250 : ℤ) ≤ 400) ∧ inDeclaredRanges 400 250 65 :=
  widget_ranges_narrower_than_declared 400 250 65
    ⟨160, by norm_num [AminaFlowSlider]⟩ ⟨350, by norm_num [flotationSlider]⟩
    ⟨1000, by norm_num [ironconcentrateSlider]⟩

end SilicaApp
